import Mathlib

/-!
Shallow embedding of the session engine and connection-admission controller of
the aquatic WebSocket load-test client (`crates/ws_load_test/src/network.rs`).

I/O is modelled by passing the outcome of each suspension point explicitly:
the request generator's candidate, the success of each transport write, and
the event produced by each transport read are inputs to the step functions.
Statistics counters are natural numbers; the shared statistics struct and the
per-worker active-connection count are threaded through explicitly.
-/

namespace WsLoadTest

abbrev InfoHash := Nat

abbrev PeerId := Nat

abbrev OfferId := Nat

/-- Tag of an RTC answer payload (`RtcAnswerType::Answer`). -/
inductive RtcAnswerType
  | answer
deriving DecidableEq

/-- RTC answer payload (`RtcAnswer { t, sdp }`). -/
structure RtcAnswer where
  t : RtcAnswerType
  sdp : String
deriving DecidableEq

/-- The fields of `AnnounceRequest` that `network.rs` reads or writes, plus the
peer id the generator fills in.  Other protocol fields are irrelevant to this
core and omitted. -/
structure AnnounceRequest where
  info_hash : InfoHash
  peer_id : PeerId
  event : Option Nat
  offers : Option Nat
  answer_to_peer_id : Option PeerId
  answer_offer_id : Option OfferId
  answer : Option RtcAnswer
deriving DecidableEq

/-- Outbound message (`InMessage`): announce- or scrape-shaped request.  The
scrape payload is opaque to this core. -/
inductive InMessage
  | announceRequest (r : AnnounceRequest)
  | scrapeRequest (payload : Nat)
deriving DecidableEq

/-- Offer notification (`OfferOutMessage`): the fields `read_message` consumes. -/
structure OfferOutMessage where
  info_hash : InfoHash
  peer_id : PeerId
  offer_id : OfferId
deriving DecidableEq

/-- Inbound message (`OutMessage`).  Payloads not consumed by `read_message`
are opaque. -/
inductive OutMessage
  | offerOutMessage (offer : OfferOutMessage)
  | answerOutMessage (payload : Nat)
  | announceResponse (payload : Nat)
  | scrapeResponse (payload : Nat)
  | errorResponse (failure_reason : String)
deriving DecidableEq

/-- The seven shared statistics counters. -/
structure Statistics where
  connections : Nat
  requests : Nat
  responses_offer : Nat
  responses_answer : Nat
  responses_announce : Nat
  responses_scrape : Nat
  responses_error : Nat
deriving DecidableEq

/-- The pure state of a `Connection`: its peer id and the pending-offer slot
(`can_send_answer`).  Config, rng and the transport stream are modelled by the
explicit step inputs. -/
structure Connection where
  peer_id : PeerId
  can_send_answer : Option (InfoHash × PeerId × OfferId)
deriving DecidableEq

/-- The fixed placeholder answer attached when an announce request is rewritten
into an offer answer (`network.rs` lines 144-147). -/
def rtc_answer_placeholder : RtcAnswer :=
  { t := RtcAnswerType.answer
    sdp := "abcdefg-abcdefg-abcdefg-abcdefg-abcdefg-abcdefg-abcdefg-abcdefg-abcdefg-abcdefg-abcdefg-abcdefg-abcdefg-abcdefg-abcdefg-" }

/-- Result of one `send_message` step: the connection and statistics
afterwards, the message handed to the transport write, and whether the step
returned `Ok`. -/
structure SendOutcome where
  conn : Connection
  stats : Statistics
  written : InMessage
  ok : Bool
deriving DecidableEq

/-- `Connection::send_message`, with the generator's candidate and the
success of the transport write as explicit inputs.  Mirrors the source: the
candidate is rewritten into an answer when it is announce-shaped and a pending
offer exists; the pending-offer slot is assigned `none` inside the
announce-shaped branch; the requests counter is incremented only after a
successful write. -/
def Connection.send_message (c : Connection) (stats : Statistics)
    (candidate : InMessage) (writeOk : Bool) : SendOutcome :=
  let step : InMessage × Connection :=
    match candidate with
    | InMessage.announceRequest r =>
        let r2 :=
          match c.can_send_answer with
          | some (info_hash, peer_id, offer_id) =>
              { r with
                  info_hash := info_hash
                  answer_to_peer_id := some peer_id
                  answer_offer_id := some offer_id
                  answer := some rtc_answer_placeholder
                  event := none
                  offers := none }
          | none => r
        (InMessage.announceRequest r2, { c with can_send_answer := none })
    | other => (other, c)
  if writeOk then
    { conn := step.2
      stats := { stats with requests := stats.requests + 1 }
      written := step.1
      ok := true }
  else
    { conn := step.2, stats := stats, written := step.1, ok := false }

/-- Outcome of one transport read, as consumed by `read_message`: end of
stream, a read error, a frame of unexpected kind, or a text/binary frame
together with its decode result. -/
inductive ReadEvent
  | streamFinished
  | readFailure
  | unexpectedFrame
  | dataFrame (decoded : Except String OutMessage)

/-- Result of one `read_message` step. -/
structure ReadOutcome where
  conn : Connection
  stats : Statistics
  ok : Bool
deriving DecidableEq

/-- `Connection::read_message` with the read outcome as explicit input.
End of stream and read errors are fatal; unexpected frame kinds and decode
failures are logged and ignored; each decoded message increments exactly its
counter, and an offer notification overwrites the pending-offer slot. -/
def Connection.read_message (c : Connection) (stats : Statistics)
    (ev : ReadEvent) : ReadOutcome :=
  match ev with
  | ReadEvent.streamFinished => ⟨c, stats, false⟩
  | ReadEvent.readFailure => ⟨c, stats, false⟩
  | ReadEvent.unexpectedFrame => ⟨c, stats, true⟩
  | ReadEvent.dataFrame (Except.ok (OutMessage.offerOutMessage offer)) =>
      ⟨{ c with can_send_answer := some (offer.info_hash, offer.peer_id, offer.offer_id) },
       { stats with responses_offer := stats.responses_offer + 1 }, true⟩
  | ReadEvent.dataFrame (Except.ok (OutMessage.answerOutMessage _)) =>
      ⟨c, { stats with responses_answer := stats.responses_answer + 1 }, true⟩
  | ReadEvent.dataFrame (Except.ok (OutMessage.announceResponse _)) =>
      ⟨c, { stats with responses_announce := stats.responses_announce + 1 }, true⟩
  | ReadEvent.dataFrame (Except.ok (OutMessage.scrapeResponse _)) =>
      ⟨c, { stats with responses_scrape := stats.responses_scrape + 1 }, true⟩
  | ReadEvent.dataFrame (Except.ok (OutMessage.errorResponse _)) =>
      ⟨c, { stats with responses_error := stats.responses_error + 1 }, true⟩
  | ReadEvent.dataFrame (Except.error _) => ⟨c, stats, true⟩

/-- The external inputs consumed by one iteration of the connection loop:
the generator's candidate, the write outcome, and the read outcome. -/
structure StepInput where
  candidate : InMessage
  writeOk : Bool
  readEv : ReadEvent

/-- Result of running the connection loop on a finite script of step inputs:
final connection and statistics, the successfully written messages in order,
and whether the loop exited via an error (`false` means the script ran out
with the loop still going). -/
structure LoopOutcome where
  conn : Connection
  stats : Statistics
  sentLog : List InMessage
  errored : Bool
deriving DecidableEq

/-- `Connection::run_connection_loop`: send then read, repeatedly, exiting as
soon as either step fails. -/
def Connection.run_connection_loop (c : Connection) (stats : Statistics) :
    List StepInput → LoopOutcome
  | [] => ⟨c, stats, [], false⟩
  | i :: rest =>
      let s := Connection.send_message c stats i.candidate i.writeOk
      if s.ok then
        let r := Connection.read_message s.conn s.stats i.readEv
        if r.ok then
          let l := Connection.run_connection_loop r.conn r.stats rest
          ⟨l.conn, l.stats, s.written :: l.sentLog, l.errored⟩
        else ⟨r.conn, r.stats, [s.written], true⟩
      else ⟨s.conn, s.stats, [], true⟩

/-- How far establishment got: connect, TLS handshake or WebSocket upgrade
failed (each aborts `Connection::run` with an error before any state change),
or the session was established. -/
inductive EstablishStage
  | connectFailed
  | tlsHandshakeFailed
  | upgradeFailed
  | established
deriving DecidableEq

/-- Result of `Connection::run`: the active-connection count and statistics
afterwards, the written messages, and the returned value — `some true` for
`Ok(())`, `some false` for an establishment error, `none` when the script ran
out with the loop still going. -/
structure RunOutcome where
  num_active_connections : Nat
  stats : Statistics
  sentLog : List InMessage
  result : Option Bool
deriving DecidableEq

/-- The `Connection` value constructed by `Connection::run` on successful
establishment: fresh peer id, empty pending-offer slot. -/
def initial_connection (peer_id : PeerId) : Connection :=
  { peer_id := peer_id, can_send_answer := none }

/-- `Connection::run`: on establishment failure, return the error with no
state change; on success, increment the active count and the connections
counter, run the loop, and on loop error decrement both and return `Ok`. -/
def Connection.run (est : EstablishStage) (peer_id : PeerId)
    (num_active_connections : Nat) (stats : Statistics)
    (script : List StepInput) : RunOutcome :=
  match est with
  | EstablishStage.established =>
      let active1 := num_active_connections + 1
      let stats1 := { stats with connections := stats.connections + 1 }
      let l := Connection.run_connection_loop (initial_connection peer_id) stats1 script
      if l.errored then
        { num_active_connections := active1 - 1
          stats := { l.stats with connections := l.stats.connections - 1 }
          sentLog := l.sentLog
          result := some true }
      else
        { num_active_connections := active1
          stats := l.stats
          sentLog := l.sentLog
          result := none }
  | _ =>
      { num_active_connections := num_active_connections
        stats := stats
        sentLog := []
        result := some false }

/-- `periodically_open_connections`: one admission-controller tick.  Returns
the number of detached session-establishment tasks spawned and the value
handed back to the repeating timer. -/
def periodically_open_connections (num_connections_per_worker : Nat)
    (num_active_connections : Nat) (connection_creation_interval : Nat) :
    Nat × Option Nat :=
  if num_active_connections < num_connections_per_worker then
    (1, some connection_creation_interval)
  else
    (0, some connection_creation_interval)

/-- The error message `run_socket_thread` produces when the repeating timer is
cancelled. -/
def timer_cancelled_message : String := "connection opener timer cancelled"

/-- `run_socket_thread`: joins the repeating admission timer; `none` (the
timer was cancelled or never scheduled) becomes the single worker-level
error, anything else is `Ok`. -/
def run_socket_thread (timer_join : Option Unit) : Except String Unit :=
  match timer_join with
  | some _ => Except.ok ()
  | none => Except.error timer_cancelled_message

/-- A choice of the random request generator: announce-shaped with an
info hash and optional event/offers, or scrape-shaped. -/
inductive GenChoice
  | announce (info_hash : InfoHash) (event : Option Nat) (offers : Option Nat)
  | scrape (payload : Nat)
deriving DecidableEq

/-- Modelled from the spec: `create_random_request` lives in
`crates/ws_load_test/src/utils.rs`, which is not under `src/`.  Per the
spec's interface (§6) and the rewrite rationale (§4.3), the generator
produces fresh announce-shaped or scrape-shaped candidates; answer-shaped
traffic arises only through the Send-step rewrite, so the candidate's answer
fields are absent. -/
def create_random_request (peer_id : PeerId) (choice : GenChoice) : InMessage :=
  match choice with
  | GenChoice.announce info_hash event offers =>
      InMessage.announceRequest
        { info_hash := info_hash
          peer_id := peer_id
          event := event
          offers := offers
          answer_to_peer_id := none
          answer_offer_id := none
          answer := none }
  | GenChoice.scrape payload => InMessage.scrapeRequest payload

/-- Whether a message is an answer to an offer: announce-shaped with any of
the answer fields present. -/
def InMessage.is_offer_answer : InMessage → Bool
  | InMessage.announceRequest r =>
      r.answer.isSome || r.answer_to_peer_id.isSome || r.answer_offer_id.isSome
  | InMessage.scrapeRequest _ => false

/-- All-zero statistics, used for concrete evaluations. -/
def stats0 : Statistics := ⟨0, 0, 0, 0, 0, 0, 0⟩

/-- A concrete generator candidate used for concrete evaluations. -/
def req0 : AnnounceRequest :=
  { info_hash := 1
    peer_id := 2
    event := some 3
    offers := some 4
    answer_to_peer_id := none
    answer_offer_id := none
    answer := none }

/-- A one-step script whose read returns end-of-stream, so the loop exits via
an error. -/
def script1 : List StepInput :=
  [⟨InMessage.scrapeRequest 0, true, ReadEvent.streamFinished⟩]

/-- A concrete generator-produced first message. -/
def msg10 : InMessage := create_random_request 0 (GenChoice.announce 1 none none)

/-- C1 fails on the code: with pending offer (1, 2, 3) and a scrape-shaped
candidate, the pending-offer slot still holds (1, 2, 3) when the Send step
completes — the clearing assignment sits inside the announce-shaped branch. -/
theorem C1_counterexample :
    (Connection.send_message ⟨0, some (1, 2, 3)⟩ stats0
        (InMessage.scrapeRequest 0) true).conn.can_send_answer = some (1, 2, 3) ∧
    ¬ (Connection.send_message ⟨0, some (1, 2, 3)⟩ stats0
        (InMessage.scrapeRequest 0) true).conn.can_send_answer = none := by
  exact ⟨rfl, by decide⟩

/-- C1 (amended): a Send step empties the pending-offer slot exactly when the
generated candidate is announce-shaped; a scrape-shaped candidate leaves the
slot unchanged, so a pending offer survives until the next announce-shaped
send attempt rather than for exactly one send attempt. -/
theorem C1_amended_clearing (c : Connection) (stats : Statistics) (writeOk : Bool) :
    (∀ r, (Connection.send_message c stats (InMessage.announceRequest r)
        writeOk).conn.can_send_answer = none) ∧
    (∀ p, (Connection.send_message c stats (InMessage.scrapeRequest p)
        writeOk).conn.can_send_answer = c.can_send_answer) := by
  constructor
  · intro r
    cases writeOk <;> rfl
  · intro p
    cases writeOk <;> rfl

/-- C2: when a pending offer (H, P, O) exists and the candidate is
announce-shaped, the transmitted message carries content identifier H,
answer-target peer id P, answer-target offer id O, the fixed non-empty
placeholder answer payload, and absent event and offers fields. -/
theorem C2_answer_rewrite (c : Connection) (stats : Statistics) (r : AnnounceRequest)
    (H : InfoHash) (P : PeerId) (O : OfferId)
    (hpend : c.can_send_answer = some (H, P, O)) :
    (Connection.send_message c stats (InMessage.announceRequest r) true).written
        = InMessage.announceRequest
            { r with
                info_hash := H
                answer_to_peer_id := some P
                answer_offer_id := some O
                answer := some rtc_answer_placeholder
                event := none
                offers := none } ∧
    ¬ rtc_answer_placeholder.sdp = "" := by
  constructor
  · simp [Connection.send_message, hpend]
  · decide

/-- C2 witness: the rewrite evaluated at a concrete pending offer (5, 6, 7)
and concrete candidate. -/
theorem C2_witness :
    (Connection.send_message ⟨9, some (5, 6, 7)⟩ stats0
        (InMessage.announceRequest req0) true).written
        = InMessage.announceRequest
            { req0 with
                info_hash := 5
                answer_to_peer_id := some 6
                answer_offer_id := some 7
                answer := some rtc_answer_placeholder
                event := none
                offers := none } ∧
    ¬ rtc_answer_placeholder.sdp = "" :=
  C2_answer_rewrite ⟨9, some (5, 6, 7)⟩ stats0 req0 5 6 7 rfl

/-- C3: each admission-controller tick spawns exactly one establishment task
when the active count is strictly below capacity and none otherwise — never
more than one — and always hands the same fixed interval back to the
repeating timer. -/
theorem C3_admission_tick (cap active interval : Nat) :
    ((periodically_open_connections cap active interval).1
        = if active < cap then 1 else 0) ∧
    (periodically_open_connections cap active interval).1 ≤ 1 ∧
    (periodically_open_connections cap active interval).2 = some interval := by
  by_cases h : active < cap <;> simp [periodically_open_connections, h]

/-- C4: each successfully decoded message increments exactly the counter of
its kind and no other; decode failures and frames of unexpected kind
increment none; in all of these cases the Receive step returns without
error. -/
theorem C4_dispatch_counters (c : Connection) (stats : Statistics) :
    (∀ offer, Connection.read_message c stats
        (ReadEvent.dataFrame (Except.ok (OutMessage.offerOutMessage offer)))
        = ⟨{ c with can_send_answer := some (offer.info_hash, offer.peer_id, offer.offer_id) },
           { stats with responses_offer := stats.responses_offer + 1 }, true⟩) ∧
    (∀ p, Connection.read_message c stats
        (ReadEvent.dataFrame (Except.ok (OutMessage.answerOutMessage p)))
        = ⟨c, { stats with responses_answer := stats.responses_answer + 1 }, true⟩) ∧
    (∀ p, Connection.read_message c stats
        (ReadEvent.dataFrame (Except.ok (OutMessage.announceResponse p)))
        = ⟨c, { stats with responses_announce := stats.responses_announce + 1 }, true⟩) ∧
    (∀ p, Connection.read_message c stats
        (ReadEvent.dataFrame (Except.ok (OutMessage.scrapeResponse p)))
        = ⟨c, { stats with responses_scrape := stats.responses_scrape + 1 }, true⟩) ∧
    (∀ msg, Connection.read_message c stats
        (ReadEvent.dataFrame (Except.ok (OutMessage.errorResponse msg)))
        = ⟨c, { stats with responses_error := stats.responses_error + 1 }, true⟩) ∧
    (∀ e, Connection.read_message c stats (ReadEvent.dataFrame (Except.error e))
        = ⟨c, stats, true⟩) ∧
    (Connection.read_message c stats ReadEvent.unexpectedFrame = ⟨c, stats, true⟩) := by
  exact ⟨fun _ => rfl, fun _ => rfl, fun _ => rfl, fun _ => rfl, fun _ => rfl,
    fun _ => rfl, rfl⟩

/-- C5: decoding an offer notification leaves the pending-offer slot holding
exactly that offer's (info hash, peer id, offer id) tuple, overwriting
whatever the slot held before; the slot's type holds at most one tuple. -/
theorem C5_offer_overwrites_slot (c : Connection) (stats : Statistics)
    (offer : OfferOutMessage) :
    (Connection.read_message c stats
        (ReadEvent.dataFrame (Except.ok (OutMessage.offerOutMessage offer)))).conn.can_send_answer
      = some (offer.info_hash, offer.peer_id, offer.offer_id) := rfl

/-- A `send_message` step never touches the connections counter. -/
theorem send_message_connections (c : Connection) (stats : Statistics)
    (candidate : InMessage) (w : Bool) :
    (Connection.send_message c stats candidate w).stats.connections
      = stats.connections := by
  cases candidate <;> cases w <;> rfl

/-- A `read_message` step never touches the connections counter. -/
theorem read_message_connections (c : Connection) (stats : Statistics)
    (ev : ReadEvent) :
    (Connection.read_message c stats ev).stats.connections = stats.connections := by
  cases ev with
  | streamFinished => rfl
  | readFailure => rfl
  | unexpectedFrame => rfl
  | dataFrame d =>
      cases d with
      | error e => rfl
      | ok m => cases m <;> rfl

/-- The connection loop never touches the connections counter. -/
theorem run_connection_loop_connections (c : Connection) (stats : Statistics)
    (script : List StepInput) :
    (Connection.run_connection_loop c stats script).stats.connections
      = stats.connections := by
  induction script generalizing c stats with
  | nil => rfl
  | cons i rest ih =>
      simp only [Connection.run_connection_loop]
      split
      · split
        · dsimp only
          rw [ih, read_message_connections, send_message_connections]
        · dsimp only
          rw [read_message_connections, send_message_connections]
      · dsimp only
        rw [send_message_connections]

/-- C6: when the connection loop of an established session exits via an error
(end-of-stream included), `Connection::run` returns `Ok`, the active count
drops by exactly one from its live value `active + 1`, and the connections
counter drops by exactly one from its value at loop exit, which is exactly
one more than before establishment. -/
theorem C6_session_exit (peer_id : PeerId) (active : Nat) (stats : Statistics)
    (script : List StepInput)
    (h : (Connection.run_connection_loop (initial_connection peer_id)
            { stats with connections := stats.connections + 1 } script).errored = true) :
    (Connection.run EstablishStage.established peer_id active stats script).result
        = some true ∧
    (Connection.run EstablishStage.established peer_id active stats script).num_active_connections
        = (active + 1) - 1 ∧
    (Connection.run EstablishStage.established peer_id active stats script).stats.connections
        = (Connection.run_connection_loop (initial_connection peer_id)
            { stats with connections := stats.connections + 1 } script).stats.connections - 1 ∧
    (Connection.run_connection_loop (initial_connection peer_id)
        { stats with connections := stats.connections + 1 } script).stats.connections
        = stats.connections + 1 := by
  refine ⟨?_, ?_, ?_, run_connection_loop_connections _ _ _⟩ <;>
    simp [Connection.run, h]

/-- C6 witness: a concrete one-step script whose read returns end-of-stream. -/
theorem C6_witness :
    (Connection.run EstablishStage.established 0 0 stats0 script1).result = some true ∧
    (Connection.run EstablishStage.established 0 0 stats0 script1).num_active_connections
        = (0 + 1) - 1 ∧
    (Connection.run EstablishStage.established 0 0 stats0 script1).stats.connections
        = (Connection.run_connection_loop (initial_connection 0)
            { stats0 with connections := stats0.connections + 1 } script1).stats.connections - 1 ∧
    (Connection.run_connection_loop (initial_connection 0)
        { stats0 with connections := stats0.connections + 1 } script1).stats.connections
        = stats0.connections + 1 :=
  C6_session_exit 0 0 stats0 script1 rfl

/-- C7: an establishment attempt failing at connect, TLS handshake or
protocol upgrade leaves every counter and the active-connection count
unchanged and returns the error to the spawned task. -/
theorem C7_failed_establishment (est : EstablishStage) (peer_id : PeerId)
    (active : Nat) (stats : Statistics) (script : List StepInput)
    (h : ¬ est = EstablishStage.established) :
    (Connection.run est peer_id active stats script).num_active_connections = active ∧
    (Connection.run est peer_id active stats script).stats = stats ∧
    (Connection.run est peer_id active stats script).result = some false := by
  cases est with
  | connectFailed => exact ⟨rfl, rfl, rfl⟩
  | tlsHandshakeFailed => exact ⟨rfl, rfl, rfl⟩
  | upgradeFailed => exact ⟨rfl, rfl, rfl⟩
  | established => exact absurd rfl h

/-- C7 witness: a concrete connect failure with a nonzero active count. -/
theorem C7_witness :
    (Connection.run EstablishStage.connectFailed 0 5 stats0 []).num_active_connections = 5 ∧
    (Connection.run EstablishStage.connectFailed 0 5 stats0 []).stats = stats0 ∧
    (Connection.run EstablishStage.connectFailed 0 5 stats0 []).result = some false :=
  C7_failed_establishment EstablishStage.connectFailed 0 5 stats0 [] (by decide)

/-- C8: the worker entry point errors exactly when the admission timer join
yields nothing, with the error naming the admission timer; every tick hands
the timer `some interval`, so nothing originating in sessions reaches the
worker entry point's result. -/
theorem C8_worker_entry (u : Unit) :
    run_socket_thread none = Except.error timer_cancelled_message ∧
    run_socket_thread (some u) = Except.ok () ∧
    timer_cancelled_message = "connection opener timer cancelled" ∧
    (∀ cap active interval,
        (periodically_open_connections cap active interval).2 = some interval) := by
  refine ⟨rfl, rfl, rfl, ?_⟩
  intro cap active interval
  by_cases h : active < cap <;> simp [periodically_open_connections, h]

/-- C9: on a write failure with an announce-shaped candidate, the pending
offer has already been cleared (and is not restored), the statistics — the
requests counter included — are untouched, and the step reports the error;
the requests counter is incremented exactly on a successful write. -/
theorem C9_write_failure (c : Connection) (stats : Statistics) (r : AnnounceRequest) :
    (Connection.send_message c stats (InMessage.announceRequest r) false).conn.can_send_answer
        = none ∧
    (Connection.send_message c stats (InMessage.announceRequest r) false).stats = stats ∧
    (Connection.send_message c stats (InMessage.announceRequest r) false).ok = false ∧
    (Connection.send_message c stats (InMessage.announceRequest r) true).stats.requests
        = stats.requests + 1 := by
  exact ⟨rfl, rfl, rfl, rfl⟩

/-- When the pending-offer slot is empty, the message handed to the transport
is the candidate unchanged. -/
theorem send_message_written_of_no_pending (c : Connection) (stats : Statistics)
    (candidate : InMessage) (w : Bool) (h : c.can_send_answer = none) :
    (Connection.send_message c stats candidate w).written = candidate := by
  cases candidate <;> cases w <;> simp [Connection.send_message, h]

/-- The generator never produces an answer-shaped message. -/
theorem create_random_request_not_answer (peer_id : PeerId) (choice : GenChoice) :
    (create_random_request peer_id choice).is_offer_answer = false := by
  cases choice <;> rfl

/-- The first entry of the loop's transmission log is the first step's written
message when its write succeeds, and nothing otherwise. -/
theorem run_connection_loop_head (c : Connection) (stats : Statistics)
    (i : StepInput) (rest : List StepInput) :
    (Connection.run_connection_loop c stats (i :: rest)).sentLog.head?
      = if i.writeOk then
          some (Connection.send_message c stats i.candidate i.writeOk).written
        else none := by
  obtain ⟨cand, w, ev⟩ := i
  cases w with
  | false => rfl
  | true =>
      cases ev with
      | streamFinished => rfl
      | readFailure => rfl
      | unexpectedFrame => rfl
      | dataFrame d =>
          cases d with
          | error e => rfl
          | ok m => cases m <;> rfl

/-- `Connection::run` transmits exactly what the connection loop transmits. -/
theorem run_established_sentLog (peer_id : PeerId) (active : Nat)
    (stats : Statistics) (script : List StepInput) :
    (Connection.run EstablishStage.established peer_id active stats script).sentLog
      = (Connection.run_connection_loop (initial_connection peer_id)
          { stats with connections := stats.connections + 1 } script).sentLog := by
  simp only [Connection.run]
  split <;> rfl

/-- C10: a freshly established session is constructed with an empty
pending-offer slot, and since the loop sends before it first receives, the
first message a session ever transmits — its candidate coming from the
generator — is never an answer to an offer. -/
theorem C10_first_send_never_answer (peer_id : PeerId) (active : Nat)
    (stats : Statistics) (choice : GenChoice) (w : Bool) (ev : ReadEvent)
    (rest : List StepInput) :
    (initial_connection peer_id).can_send_answer = none ∧
    ∀ m, (Connection.run EstablishStage.established peer_id active stats
            (⟨create_random_request peer_id choice, w, ev⟩ :: rest)).sentLog.head?
            = some m →
        m.is_offer_answer = false := by
  refine ⟨rfl, ?_⟩
  intro m hm
  rw [run_established_sentLog, run_connection_loop_head] at hm
  cases w with
  | false => simp at hm
  | true =>
      simp only [if_true] at hm
      rw [send_message_written_of_no_pending _ _ _ _ rfl] at hm
      have hme : create_random_request peer_id choice = m := by
        exact Option.some.inj (by simpa using hm)
      rw [← hme]
      exact create_random_request_not_answer peer_id choice

/-- C10 witness: the concrete first transmission of a fresh session. -/
theorem C10_witness :
    (initial_connection 0).can_send_answer = none ∧
    InMessage.is_offer_answer msg10 = false :=
  ⟨(C10_first_send_never_answer 0 0 stats0 (GenChoice.announce 1 none none) true
      ReadEvent.streamFinished []).1,
   (C10_first_send_never_answer 0 0 stats0 (GenChoice.announce 1 none none) true
      ReadEvent.streamFinished []).2 msg10 rfl⟩

end WsLoadTest
